import Mathlib

/-!
Verification of the AFRIMET dashboard's data-derivation layer
(`src/src/App.jsx` and the earlier single-page variant `src/unnamed/part_000`).

The embedding models the three core operations:
* the status classifier `isActive` (both implementations: the `typeof`-guarded
  one from App.jsx and the nullish-coalescing one from part_000),
* the collection filter `filtered` (scoped, from App.jsx) and `filteredAlt`
  (unscoped, from part_000),
* the aggregator `stationActivitySeries` with its helper `activeCountForYear`,
  and the KPI `counts` computation.

JavaScript values that can inhabit the `begin_year` / `end_year` fields are
modelled by `JSVal` (integers, strings, `null`, `undefined`).  JS string
operations used by the code (`trim`, `toLowerCase`, `includes`) are modelled
on the character lists of Lean strings; `toLowerCase` is modelled at ASCII
granularity, which covers every string the code's claims exercise.  JS
`ToNumber` (needed for part_000's relational comparison on a possibly
non-numeric bound) is modelled for the values in this development: numbers map
to themselves, `null` to 0, `undefined` to NaN (represented `none`), and a
string is trimmed and read as an optionally signed decimal integer literal
(empty string is 0, any other non-numeric string is NaN); fractional, hex and
exponent literals do not occur in this development.
-/

namespace Afrimet

/-- A JavaScript primitive value as it can appear in a station's year fields:
an (integer) number, a string, `null`, or `undefined` (also standing for an
absent property). -/
inductive JSVal where
  | vnum (n : Int)
  | vstr (s : String)
  | vnull
  | vundefined
  deriving DecidableEq

/-- A station record from the feed: `station_id`, `name`, `country` are
optional strings (`none` models an absent/undefined property), and the two
year bounds are arbitrary JS values, as the code inspects their type. -/
structure Station where
  station_id : Option String
  name : Option String
  country : Option String
  begin_year : JSVal
  end_year : JSVal
  deriving DecidableEq

/-- `typeof v === "number" ? v : d` — the bound normalization used by
App.jsx's `isActive` (lines 14-15) and `activeCountForYear` (lines 22-23). -/
def typeofNumberOr (v : JSVal) (d : Int) : Int :=
  match v with
  | .vnum n => n
  | _ => d

/-- `isActive` from src/src/App.jsx lines 13-17: effective bounds are the
numeric `begin_year` / `end_year` when present, else the sentinels
-9999 / 9999, and the station is active iff `lo <= year && year <= hi`. -/
def isActive (st : Station) (year : Int) : Bool :=
  decide (typeofNumberOr st.begin_year (-9999) ≤ year)
    && decide (year ≤ typeofNumberOr st.end_year 9999)

/-- `v ?? d` restricted to the shapes part_000 uses: nullish coalescing
replaces `null`/`undefined` by the numeric sentinel and keeps any other
value (in particular a string) unchanged. -/
def jsCoalesce (v : JSVal) (d : Int) : JSVal :=
  match v with
  | .vnull => .vnum d
  | .vundefined => .vnum d
  | _ => v

/-- Model of JS whitespace trimming: drop whitespace characters from both
ends of the string's character list. -/
def jsTrim (s : String) : String :=
  String.mk (((s.data.dropWhile Char.isWhitespace).reverse.dropWhile Char.isWhitespace).reverse)

/-- Model of JS `toLowerCase` at ASCII granularity: lower-case each
character. -/
def jsToLower (s : String) : String :=
  String.mk (s.data.map Char.toLower)

/-- The value of a nonempty all-digit character list read as a decimal
numeral; `none` when the list is empty or holds a non-digit. -/
def decDigitsVal (cs : List Char) : Option Nat :=
  if cs ≠ [] ∧ cs.all Char.isDigit then
    some (cs.foldl (fun a c => a * 10 + (c.toNat - 48)) 0)
  else
    none

/-- An optionally signed decimal integer literal read from a character list;
the empty list reads as 0 (JS `ToNumber("")` is 0), anything non-numeric is
`none` (NaN). -/
def strToIntList : List Char → Option Int
  | [] => some 0
  | '-' :: rest => (decDigitsVal rest).map (fun n => -(n : Int))
  | '+' :: rest => (decDigitsVal rest).map (fun n => (n : Int))
  | cs => (decDigitsVal cs).map (fun n => (n : Int))

/-- JS `ToNumber` on the values of this model: a number is itself, `null` is
0, `undefined` is NaN (`none`), and a string is trimmed and read as an
optionally signed decimal integer literal. -/
def toNumber : JSVal → Option Int
  | .vnum n => some n
  | .vnull => some 0
  | .vundefined => none
  | .vstr s => strToIntList (jsTrim s).data

/-- JS `<=` after `ToNumber` on both sides: any NaN operand makes the
comparison false, otherwise numeric order. -/
def jsLe (a b : Option Int) : Bool :=
  match a, b with
  | some x, some y => decide (x ≤ y)
  | _, _ => false

/-- `isActive` from src/unnamed/part_000 lines 3-7: bounds are normalized
with nullish coalescing (`?? -9999`, `?? 9999`) — so a string bound is kept —
and then compared with JS `<=`. -/
def isActiveAlt (st : Station) (year : Int) : Bool :=
  jsLe (toNumber (jsCoalesce st.begin_year (-9999))) (some year)
    && jsLe (some year) (toNumber (jsCoalesce st.end_year 9999))

/-- `s.field || ""` for the optional display strings: an absent field
normalizes to the empty string. -/
def strOrEmpty : Option String → String
  | some s => s
  | none => ""

/-- Substring containment on character lists, one test per start position
including the end of the list (the empty pattern matches everywhere). -/
def containsSub (sub : List Char) : List Char → Bool
  | [] => sub.isEmpty
  | c :: t => sub.isPrefixOf (c :: t) || containsSub sub t

/-- JS `s.includes(sub)`: substring containment. -/
def jsIncludes (s sub : String) : Bool :=
  containsSub sub.data s.data

/-- The search-field scope selector of App.jsx (`searchBy`): one of
`all | station | name | country`. -/
inductive SearchScope where
  | all
  | station
  | name
  | country
  deriving DecidableEq

/-- The per-station match predicate of App.jsx's `filtered` (lines 72-83):
each of the three fields is lower-cased (absent fields as `""`), and the
scope picks which fields the folded query is substring-tested against. -/
def matchesScope (scope : SearchScope) (qq : String) (s : Station) : Bool :=
  match scope with
  | .station => jsIncludes (jsToLower (strOrEmpty s.station_id)) qq
  | .name => jsIncludes (jsToLower (strOrEmpty s.name)) qq
  | .country => jsIncludes (jsToLower (strOrEmpty s.country)) qq
  | .all =>
      jsIncludes (jsToLower (strOrEmpty s.station_id)) qq
        || jsIncludes (jsToLower (strOrEmpty s.name)) qq
        || jsIncludes (jsToLower (strOrEmpty s.country)) qq

/-- `filtered` from src/src/App.jsx lines 68-84: the query is trimmed and
lower-cased; an empty folded query returns the collection itself, otherwise
the collection is filtered by `matchesScope`. -/
def filtered (stations : List Station) (q : String) (scope : SearchScope) : List Station :=
  if jsToLower (jsTrim q) = "" then stations
  else stations.filter (matchesScope scope (jsToLower (jsTrim q)))

/-- `filtered` from src/unnamed/part_000 lines 40-50: no scope; the predicate
returns true outright for an empty folded query, else tests the three folded
fields for substring containment. -/
def filteredAlt (stations : List Station) (q : String) : List Station :=
  stations.filter (fun s =>
    if jsToLower (jsTrim q) = "" then true
    else
      jsIncludes (jsToLower (strOrEmpty s.station_id)) (jsToLower (jsTrim q))
        || jsIncludes (jsToLower (strOrEmpty s.name)) (jsToLower (jsTrim q))
        || jsIncludes (jsToLower (strOrEmpty s.country)) (jsToLower (jsTrim q)))

/-- `activeCountForYear` from src/src/App.jsx lines 19-27: count the stations
whose normalized bounds admit the year; the loop body repeats exactly the
bound logic of `isActive`. -/
def activeCountForYear (stations : List Station) (year : Int) : Nat :=
  stations.countP (fun s =>
    decide (typeofNumberOr s.begin_year (-9999) ≤ year)
      && decide (year ≤ typeofNumberOr s.end_year 9999))

/-- One entry of the activity series: `{year, active, inactive, total}`. -/
structure SeriesEntry where
  year : Int
  active : Nat
  inactive : Nat
  total : Nat
  deriving DecidableEq

/-- The years enumerated by the aggregation loop
`for (let y = 1900; y <= endYear; y++)`: 1900, 1901, …, `endYear`
(empty when `endYear < 1900`). -/
def yearsFrom1900 (endYear : Int) : List Int :=
  (List.range (endYear - 1899).toNat).map (fun (i : Nat) => 1900 + (i : Int))

/-- `stationActivitySeries` from src/src/App.jsx lines 94-111: an empty
collection short-circuits to the empty list; otherwise one entry per year
from 1900 to `endYear` with `active` counted by `activeCountForYear`,
`total` the collection size, and `inactive = total - active` (the code binds
`total` and `active` to locals; they are inlined here). -/
def stationActivitySeries (stations : List Station) (endYear : Int) : List SeriesEntry :=
  if stations.isEmpty then []
  else
    (yearsFrom1900 endYear).map (fun y =>
      { year := y
        active := activeCountForYear stations y
        inactive := stations.length - activeCountForYear stations y
        total := stations.length })

/-- The KPI counts record `{active, inactive, total}`. -/
structure Counts where
  active : Nat
  inactive : Nat
  total : Nat
  deriving DecidableEq

/-- JS falsiness of the `year` state: `!year` is true when `year` is `null`
(modelled `none`) or the number 0. -/
def jsFalsyYear : Option Int → Bool
  | none => true
  | some n => n == 0

/-- `counts` from src/src/App.jsx lines 86-92: if the filtered collection is
empty or the year is falsy, return zero active/inactive with the filtered
length as total; otherwise count the active stations with `isActive` and
derive `inactive` as the difference. -/
def counts (fl : List Station) (year : Option Int) : Counts :=
  if fl.isEmpty || jsFalsyYear year then
    { active := 0, inactive := 0, total := fl.length }
  else
    { active := (fl.filter (fun s => isActive s (year.getD 0))).length
      inactive := fl.length - (fl.filter (fun s => isActive s (year.getD 0))).length
      total := fl.length }

/-- `counts` from src/unnamed/part_000 lines 52-57: same shape, but the
activity test is that file's `isActive` (modelled `isActiveAlt`). -/
def countsAlt (fl : List Station) (year : Option Int) : Counts :=
  if fl.isEmpty || jsFalsyYear year then
    { active := 0, inactive := 0, total := fl.length }
  else
    { active := (fl.filter (fun s => isActiveAlt s (year.getD 0))).length
      inactive := fl.length - (fl.filter (fun s => isActiveAlt s (year.getD 0))).length
      total := fl.length }

/-- The worked-example station `{station_id:"AAA", begin_year:1990,
end_year:2005}` of the spec's testable properties. -/
def stAAA : Station :=
  { station_id := some "AAA", name := none, country := none,
    begin_year := JSVal.vnum 1990, end_year := JSVal.vnum 2005 }

/-- A station with neither year bound. -/
def stUnbounded : Station :=
  { station_id := some "UUU", name := none, country := none,
    begin_year := JSVal.vundefined, end_year := JSVal.vundefined }

/-- A station whose `begin_year` is the non-numeric string "abc" and whose
`end_year` is absent. -/
def stStringBound : Station :=
  { station_id := some "SSS", name := none, country := none,
    begin_year := JSVal.vstr "abc", end_year := JSVal.vundefined }

/-- A station whose `begin_year` is `null` and whose `end_year` is absent. -/
def stNullBound : Station :=
  { station_id := some "NNN", name := none, country := none,
    begin_year := JSVal.vnull, end_year := JSVal.vundefined }

/-- The worked-example station `{station_id:"X01", name:"Accra",
country:"Ghana"}` of the spec's filter examples. -/
def stGhana : Station :=
  { station_id := some "X01", name := some "Accra", country := some "Ghana",
    begin_year := JSVal.vundefined, end_year := JSVal.vundefined }

/-- C2 (counterexample): the claim says a station with neither bound is
active for every integer year with no restriction on magnitude, but the code
normalizes the absent bounds to the sentinels -9999/9999, so at year 10000
`isActive` returns false. -/
theorem isActive_extreme_year_counterexample :
    isActive stUnbounded 10000 = false := by decide

/-- C2 (amended): for a station with both year bounds absent, `isActive`
returns true exactly for the years in the sentinel range [-9999, 9999] (so it
returns false at more extreme years), and part_000's implementation agrees
with App.jsx's on such a station. -/
theorem isActive_unbounded_sentinel_range (st : Station) (year : Int)
    (hb : st.begin_year = JSVal.vundefined) (he : st.end_year = JSVal.vundefined) :
    (isActive st year = true ↔ (-9999 ≤ year ∧ year ≤ 9999))
    ∧ isActiveAlt st year = isActive st year := by
  constructor
  · simp [isActive, typeofNumberOr, hb, he]
  · simp [isActive, isActiveAlt, typeofNumberOr, jsCoalesce, toNumber, jsLe, hb, he]

/-- C2 (witness): the amended statement instantiated at the concrete
unbounded station and the year 1950. -/
theorem isActive_unbounded_sentinel_range_witness :
    (isActive stUnbounded 1950 = true ↔ (-9999 ≤ (1950 : Int) ∧ (1950 : Int) ≤ 9999))
    ∧ isActiveAlt stUnbounded 1950 = isActive stUnbounded 1950 :=
  isActive_unbounded_sentinel_range stUnbounded 1950 rfl rfl

/-- C4 (counterexample): the claim asserts `isActive(st, begin_year) = true`
for every station whose two bounds are present integers, but a station with
`begin_year = 2005 > end_year = 1990` is inactive at its own begin year. -/
theorem isActive_boundary_degenerate_counterexample :
    isActive
      { station_id := some "DDD", name := none, country := none,
        begin_year := JSVal.vnum 2005, end_year := JSVal.vnum 1990 } 2005 = false := by
  decide

/-- C4 (amended): for every station whose bounds are present integers with
`begin_year ≤ end_year`, `isActive` is true at both bounds (inclusive `≤` on
both sides); and on the worked example {AAA, 1990, 2005}, `isActive` is true
at 1990 and 2005 and false at 1989 and 2006. -/
theorem isActive_boundary_inclusive (st : Station) (b e : Int)
    (hb : st.begin_year = JSVal.vnum b) (he : st.end_year = JSVal.vnum e)
    (hle : b ≤ e) :
    isActive st b = true ∧ isActive st e = true
    ∧ isActive stAAA 1990 = true ∧ isActive stAAA 2005 = true
    ∧ isActive stAAA 1989 = false ∧ isActive stAAA 2006 = false := by
  refine ⟨?_, ?_, by decide, by decide, by decide, by decide⟩
  · simp [isActive, typeofNumberOr, hb, he]
    exact hle
  · simp [isActive, typeofNumberOr, hb, he]
    exact hle

/-- C4 (witness): the amended statement instantiated at the station AAA
itself. -/
theorem isActive_boundary_inclusive_witness :
    isActive stAAA 1990 = true ∧ isActive stAAA 2005 = true
    ∧ isActive stAAA 1990 = true ∧ isActive stAAA 2005 = true
    ∧ isActive stAAA 1989 = false ∧ isActive stAAA 2006 = false :=
  isActive_boundary_inclusive stAAA 1990 2005 rfl rfl (by decide)

/-- C5: a station whose present integer bounds are reversed
(`begin_year > end_year`) is active for no year; `isActive` is a total
function, so the degenerate input is handled silently. -/
theorem isActive_reversed_bounds_false (st : Station) (b e year : Int)
    (hb : st.begin_year = JSVal.vnum b) (he : st.end_year = JSVal.vnum e)
    (hgt : e < b) :
    isActive st year = false := by
  simp [isActive, typeofNumberOr, hb, he]
  omega

/-- C5 (witness): the reversed-bounds station {2005, 1990} is inactive at
year 2000. -/
theorem isActive_reversed_bounds_false_witness :
    isActive
      { station_id := some "ZZZ", name := none, country := none,
        begin_year := JSVal.vnum 2005, end_year := JSVal.vnum 1990 } 2000 = false :=
  isActive_reversed_bounds_false _ 2005 1990 2000 rfl rfl (by decide)

/-- Whether a JS value is of type number (`typeof v === "number"`). -/
def isNumericVal : JSVal → Bool
  | .vnum _ => true
  | _ => false

/-- C3 (counterexample): the claim says both implementations treat a string
bound exactly as an absent bound, but part_000's `isActive` keeps a string
through `??` and compares it with JS `<=`: with `begin_year = "abc"` it
returns false at year 2000, while with the bound absent it returns true. -/
theorem isActiveAlt_string_bound_counterexample :
    isActiveAlt stStringBound 2000 = false
    ∧ isActiveAlt stUnbounded 2000 = true := by decide

/-- C3 (amended): App.jsx's `isActive` treats any non-numeric bound (string,
`null`, or `undefined`) exactly as an absent bound, via `typeof` inspection
and never by raising an error; part_000's `isActive` treats only `null` and
`undefined` as absent — a string bound is kept by `??` and compared as a JS
value, so on the station with `begin_year = "abc"` it differs from App.jsx's
at year 2000. -/
theorem nonNumeric_bound_treatment :
    (∀ st : Station, ∀ y : Int, isNumericVal st.begin_year = false →
        isActive st y = isActive { st with begin_year := JSVal.vundefined } y)
    ∧ (∀ st : Station, ∀ y : Int, isNumericVal st.end_year = false →
        isActive st y = isActive { st with end_year := JSVal.vundefined } y)
    ∧ (∀ st : Station, ∀ y : Int,
        st.begin_year = JSVal.vnull ∨ st.begin_year = JSVal.vundefined →
        isActiveAlt st y = isActiveAlt { st with begin_year := JSVal.vundefined } y)
    ∧ (∀ st : Station, ∀ y : Int,
        st.end_year = JSVal.vnull ∨ st.end_year = JSVal.vundefined →
        isActiveAlt st y = isActiveAlt { st with end_year := JSVal.vundefined } y)
    ∧ isActiveAlt stStringBound 2000 = false
    ∧ isActive stStringBound 2000 = true := by
  refine ⟨?_, ?_, ?_, ?_, by decide, by decide⟩
  · intro st y h
    cases hb : st.begin_year <;> simp_all [isActive, typeofNumberOr, isNumericVal]
  · intro st y h
    cases he : st.end_year <;> simp_all [isActive, typeofNumberOr, isNumericVal]
  · intro st y h
    rcases h with h | h <;> simp [isActiveAlt, jsCoalesce, h]
  · intro st y h
    rcases h with h | h <;> simp [isActiveAlt, jsCoalesce, h]

/-- C3 (witness): the amended statement instantiated on the string-bound
station (for App.jsx's implementation) and the null-bound station (for
part_000's implementation). -/
theorem nonNumeric_bound_treatment_witness :
    (isActive stStringBound 2000
      = isActive { stStringBound with begin_year := JSVal.vundefined } 2000)
    ∧ (isActiveAlt stNullBound 2000
      = isActiveAlt { stNullBound with begin_year := JSVal.vundefined } 2000) :=
  ⟨nonNumeric_bound_treatment.1 stStringBound 2000 (by decide),
   nonNumeric_bound_treatment.2.2.1 stNullBound 2000 (Or.inl rfl)⟩

/-- C1 (counterexample): the claim says the series over an empty collection
for the range [1900, 1901] has exactly the two zero-total entries for 1900
and 1901, but the code short-circuits an empty collection to the empty
series. -/
theorem emptySeries_counterexample :
    stationActivitySeries [] 1901
      ≠ [{ year := 1900, active := 0, inactive := 0, total := 0 },
         { year := 1901, active := 0, inactive := 0, total := 0 }] := by decide

/-- C1 (amended): an empty collection yields an empty series for every end
year (the code short-circuits before building entries); for a non-empty
collection the series has exactly one entry per integer year of
[1900, endYear], in ascending order of that enumeration. -/
theorem series_empty_collection_amended (S : List Station) (e : Int) (hne : S ≠ []) :
    stationActivitySeries [] e = []
    ∧ (stationActivitySeries S e).map SeriesEntry.year = yearsFrom1900 e
    ∧ (∀ y : Int, y ∈ yearsFrom1900 e ↔ 1900 ≤ y ∧ y ≤ e) := by
  refine ⟨by simp [stationActivitySeries], ?_, ?_⟩
  · have hS : S.isEmpty = false := by
      cases S with
      | nil => exact absurd rfl hne
      | cons a t => rfl
    rw [stationActivitySeries, if_neg (by simp [hS]), List.map_map]
    exact List.map_id' _
  · intro y
    constructor
    · intro hy
      rw [yearsFrom1900, List.mem_map] at hy
      obtain ⟨i, hi, h3⟩ := hy
      rw [List.mem_range] at hi
      omega
    · intro h
      rw [yearsFrom1900, List.mem_map]
      exact ⟨(y - 1900).toNat, List.mem_range.mpr (by omega), by omega⟩

/-- C1 (witness): the amended statement instantiated at the collection [AAA]
and end year 1901. -/
theorem series_empty_collection_amended_witness :
    stationActivitySeries [] 1901 = []
    ∧ (stationActivitySeries [stAAA] 1901).map SeriesEntry.year = yearsFrom1900 1901
    ∧ (∀ y : Int, y ∈ yearsFrom1900 1901 ↔ 1900 ≤ y ∧ y ≤ 1901) :=
  series_empty_collection_amended [stAAA] 1901 (by decide)

/-- C6: a query that is empty after trimming makes both implementations of
the filter return the collection itself, every station present in the
original relative order. -/
theorem filtered_empty_query_identity (S : List Station) (q : String)
    (scope : SearchScope) (h : jsTrim q = "") :
    filtered S q scope = S ∧ filteredAlt S q = S := by
  have hq : jsToLower (jsTrim q) = "" := by rw [h]; rfl
  constructor
  · simp [filtered, hq]
  · simp [filteredAlt, hq]

/-- C6 (witness): the whitespace query "  " leaves the one-station
collection [AAA] unchanged under the all-fields scope, in both
implementations. -/
theorem filtered_empty_query_identity_witness :
    filtered [stAAA] "  " SearchScope.all = [stAAA]
    ∧ filteredAlt [stAAA] "  " = [stAAA] :=
  filtered_empty_query_identity [stAAA] "  " SearchScope.all (by decide)

/-- Filtering a list by the same Boolean predicate twice gives the same
result as filtering once. -/
theorem filter_twice_eq (p : Station → Bool) (l : List Station) :
    (l.filter p).filter p = l.filter p := by
  induction l with
  | nil => rfl
  | cons a t ih =>
    by_cases h : p a = true
    · simp [List.filter_cons, h, ih]
    · simp [List.filter_cons, h, ih]

/-- C7: the scoped filter is idempotent — filtering an already filtered
collection with the same query and scope changes nothing (same elements,
same order). -/
theorem filtered_idempotent (S : List Station) (q : String) (scope : SearchScope) :
    filtered (filtered S q scope) q scope = filtered S q scope := by
  unfold filtered
  by_cases h : jsToLower (jsTrim q) = ""
  · simp [h]
  · simp only [h, if_neg, if_false]
    exact filter_twice_eq _ S

/-- C8: under a single-field scope and a nonempty folded query, a station is
in the filtered collection iff it is in the input and the folded query is a
substring of that one folded field (so the other two fields are ignored);
and on the worked example, the query "gha" keeps X01 under the all-fields
scope but drops it under the station-id-only scope. -/
theorem filtered_single_scope_spec (S : List Station) (q : String) (s : Station)
    (h : jsToLower (jsTrim q) ≠ "") :
    (s ∈ filtered S q SearchScope.station ↔
      s ∈ S ∧ jsIncludes (jsToLower (strOrEmpty s.station_id)) (jsToLower (jsTrim q)) = true)
    ∧ (s ∈ filtered S q SearchScope.name ↔
      s ∈ S ∧ jsIncludes (jsToLower (strOrEmpty s.name)) (jsToLower (jsTrim q)) = true)
    ∧ (s ∈ filtered S q SearchScope.country ↔
      s ∈ S ∧ jsIncludes (jsToLower (strOrEmpty s.country)) (jsToLower (jsTrim q)) = true)
    ∧ filtered [stGhana] "gha" SearchScope.all = [stGhana]
    ∧ filtered [stGhana] "gha" SearchScope.station = [] := by
  refine ⟨?_, ?_, ?_, by decide, by decide⟩ <;>
    simp [filtered, h, matchesScope, List.mem_filter]

/-- C8 (witness): the characterization instantiated at the Ghana example
station for each single-field scope, plus the two worked filter examples. -/
theorem filtered_single_scope_spec_witness :
    (stGhana ∈ filtered [stGhana] "gha" SearchScope.station ↔
      stGhana ∈ [stGhana]
        ∧ jsIncludes (jsToLower (strOrEmpty stGhana.station_id)) (jsToLower (jsTrim "gha")) = true)
    ∧ (stGhana ∈ filtered [stGhana] "gha" SearchScope.name ↔
      stGhana ∈ [stGhana]
        ∧ jsIncludes (jsToLower (strOrEmpty stGhana.name)) (jsToLower (jsTrim "gha")) = true)
    ∧ (stGhana ∈ filtered [stGhana] "gha" SearchScope.country ↔
      stGhana ∈ [stGhana]
        ∧ jsIncludes (jsToLower (strOrEmpty stGhana.country)) (jsToLower (jsTrim "gha")) = true)
    ∧ filtered [stGhana] "gha" SearchScope.all = [stGhana]
    ∧ filtered [stGhana] "gha" SearchScope.station = [] :=
  filtered_single_scope_spec [stGhana] "gha" stGhana (by decide)

/-- C9: every entry of the activity series satisfies
`active + inactive = total = |S|`, and `inactive` is the difference
`total - active` (it is derived, not counted independently). -/
theorem series_entry_invariant (S : List Station) (e : Int) (entry : SeriesEntry)
    (h : entry ∈ stationActivitySeries S e) :
    entry.active + entry.inactive = entry.total
    ∧ entry.total = S.length
    ∧ entry.inactive = entry.total - entry.active := by
  unfold stationActivitySeries at h
  by_cases hS : S.isEmpty
  · simp [hS] at h
  · rw [if_neg (by simp [hS]), List.mem_map] at h
    obtain ⟨y, hy, heq⟩ := h
    subst heq
    have hle : activeCountForYear S y ≤ S.length := List.countP_le_length _
    refine ⟨?_, rfl, rfl⟩
    simp only [activeCountForYear] at hle ⊢
    omega

/-- C9 (witness): the invariant instantiated at the singleton collection
[AAA] and the series entry it produces for the year 1900 (AAA begins in
1990, so it is inactive then). -/
theorem series_entry_invariant_witness :
    ({ year := 1900, active := 0, inactive := 1, total := 1 } : SeriesEntry).active
        + ({ year := 1900, active := 0, inactive := 1, total := 1 } : SeriesEntry).inactive
      = ({ year := 1900, active := 0, inactive := 1, total := 1 } : SeriesEntry).total
    ∧ ({ year := 1900, active := 0, inactive := 1, total := 1 } : SeriesEntry).total
      = ([stAAA] : List Station).length
    ∧ ({ year := 1900, active := 0, inactive := 1, total := 1 } : SeriesEntry).inactive
      = ({ year := 1900, active := 0, inactive := 1, total := 1 } : SeriesEntry).total
        - ({ year := 1900, active := 0, inactive := 1, total := 1 } : SeriesEntry).active :=
  series_entry_invariant [stAAA] 1900
    { year := 1900, active := 0, inactive := 1, total := 1 } (by decide)

/-- C10: the KPI counts return `{active: 0, inactive: 0, total: |filtered|}`
when the selected year is absent, the selected year is the number 0, or the
filtered collection is empty; hence for a non-empty filtered collection with
no selected year `active + inactive = 0 ≠ total`, while for a non-zero
selected year and non-empty filtered collection `active + inactive = total`.
The same holds for part_000's counts. -/
theorem counts_edge_cases (fl : List Station) (y : Int)
    (hne : fl ≠ []) (hy : y ≠ 0) :
    counts fl none = { active := 0, inactive := 0, total := fl.length }
    ∧ counts [] (some y) = { active := 0, inactive := 0, total := 0 }
    ∧ counts fl (some 0) = { active := 0, inactive := 0, total := fl.length }
    ∧ (counts fl none).active + (counts fl none).inactive ≠ (counts fl none).total
    ∧ (counts fl (some y)).active + (counts fl (some y)).inactive
        = (counts fl (some y)).total
    ∧ countsAlt fl none = { active := 0, inactive := 0, total := fl.length }
    ∧ countsAlt [] (some y) = { active := 0, inactive := 0, total := 0 }
    ∧ countsAlt fl (some 0) = { active := 0, inactive := 0, total := fl.length }
    ∧ (countsAlt fl none).active + (countsAlt fl none).inactive
        ≠ (countsAlt fl none).total
    ∧ (countsAlt fl (some y)).active + (countsAlt fl (some y)).inactive
        = (countsAlt fl (some y)).total := by
  have hE : fl.isEmpty = false := by
    cases fl with
    | nil => exact absurd rfl hne
    | cons a t => rfl
  have hlen : fl.length ≠ 0 := by
    cases fl with
    | nil => exact absurd rfl hne
    | cons a t => simp
  have hy0 : (y == 0) = false := by
    simp [hy]
  refine ⟨by simp [counts, jsFalsyYear], by simp [counts], by simp [counts, jsFalsyYear],
    ?_, ?_, by simp [countsAlt, jsFalsyYear], by simp [countsAlt],
    by simp [countsAlt, jsFalsyYear], ?_, ?_⟩
  · simp only [counts, jsFalsyYear, Bool.or_true, if_pos]
    simpa using fun hc => absurd hc.symm hlen
  · have hfl : (fl.filter (fun s => isActive s ((some y).getD 0))).length ≤ fl.length :=
      List.length_filter_le _ _
    simp only [counts, jsFalsyYear, hE, hy0, Bool.or_self, Bool.or_false, if_neg,
      Bool.false_eq_true, not_false_eq_true]
    omega
  · simp only [countsAlt, jsFalsyYear, Bool.or_true, if_pos]
    simpa using fun hc => absurd hc.symm hlen
  · have hfl : (fl.filter (fun s => isActiveAlt s ((some y).getD 0))).length ≤ fl.length :=
      List.length_filter_le _ _
    simp only [countsAlt, jsFalsyYear, hE, hy0, Bool.or_self, Bool.or_false, if_neg,
      Bool.false_eq_true, not_false_eq_true]
    omega

/-- C10 (witness): the edge cases instantiated at the singleton collection
[AAA] and the year 1990. -/
theorem counts_edge_cases_witness :
    counts [stAAA] none = { active := 0, inactive := 0, total := 1 }
    ∧ counts [] (some 1990) = { active := 0, inactive := 0, total := 0 }
    ∧ counts [stAAA] (some 0) = { active := 0, inactive := 0, total := 1 }
    ∧ (counts [stAAA] none).active + (counts [stAAA] none).inactive
        ≠ (counts [stAAA] none).total
    ∧ (counts [stAAA] (some 1990)).active + (counts [stAAA] (some 1990)).inactive
        = (counts [stAAA] (some 1990)).total
    ∧ countsAlt [stAAA] none = { active := 0, inactive := 0, total := 1 }
    ∧ countsAlt [] (some 1990) = { active := 0, inactive := 0, total := 0 }
    ∧ countsAlt [stAAA] (some 0) = { active := 0, inactive := 0, total := 1 }
    ∧ (countsAlt [stAAA] none).active + (countsAlt [stAAA] none).inactive
        ≠ (countsAlt [stAAA] none).total
    ∧ (countsAlt [stAAA] (some 1990)).active + (countsAlt [stAAA] (some 1990)).inactive
        = (countsAlt [stAAA] (some 1990)).total :=
  counts_edge_cases [stAAA] 1990 (by decide) (by decide)

end Afrimet
